import Mathlib

set_option maxRecDepth 100000

/-!
Shallow embedding of the two-stage Common-Crawl news pipeline
(`warc_extractor.py` and `warc_extracted_files_processor.py`).

Python strings are modelled as `List Char` (the text of an already
UTF-8-decoded string); Python `None`-able values as `Option`; exceptions as
an explicit `PyError` value threaded through `Except`.  External
collaborators (the WARC record iterator, the news-please extractor) enter
the model only through the data they hand the pipeline, exactly at the
interface the source code reads from them.
-/

/-- A Python exception value, carrying `str(e)`. -/
inductive PyError where
  | typeError (msg : List Char)
  | valueError (msg : List Char)
  | attributeError (msg : List Char)
  | validationError (msg : List Char)
deriving DecidableEq, Repr

/-- `str(e)` of a modelled Python exception. -/
def pyErrStr : PyError → List Char
  | .typeError m => m
  | .valueError m => m
  | .attributeError m => m
  | .validationError m => m

/-- Python `str.split(sep)` for a one-character separator: keeps empty
pieces, result is never empty. -/
def pySplitC (sep : Char) : List Char → List (List Char)
  | [] => [[]]
  | c :: rest =>
    if c = sep then [] :: pySplitC sep rest
    else
      match pySplitC sep rest with
      | [] => [[c]]
      | g :: gs => (c :: g) :: gs

/-- Whether `needle` occurs as a contiguous substring of the second string. -/
def containsChars : List Char → List Char → Bool
  | needle, [] => decide (needle = [])
  | needle, c :: rest => List.isPrefixOf needle (c :: rest) || containsChars needle rest

/-- Decimal value of a digit string. -/
def digitsVal (ds : List Char) : Nat :=
  ds.foldl (fun n c => 10 * n + (c.toNat - 48)) 0

/-- Python `int(s)` on a string: strips spaces, accepts an optional sign
followed by digits; anything else raises `ValueError`. -/
def pyIntParse (s : List Char) : Option Int :=
  let t := (((s.dropWhile (· = ' ')).reverse).dropWhile (· = ' ')).reverse
  match t with
  | '-' :: ds =>
      if ds.all Char.isDigit ∧ ds ≠ [] then some (-(digitsVal ds : Int)) else none
  | '+' :: ds =>
      if ds.all Char.isDigit ∧ ds ≠ [] then some ((digitsVal ds : Int)) else none
  | ds =>
      if ds.all Char.isDigit ∧ ds ≠ [] then some ((digitsVal ds : Int)) else none

/-- Python `int(x)` where `x` is an optional header string: `int(None)`
raises `TypeError`, a non-numeric string raises `ValueError`. -/
def pyInt : Option (List Char) → Except PyError Int
  | none =>
      .error (.typeError
        "int() argument must be a string, a bytes-like object or a real number, not NoneType".toList)
  | some s =>
      match pyIntParse s with
      | some v => .ok v
      | none => .error (.valueError ("invalid literal for int() with base 10: ".toList ++ s))

/-- Python truthiness of an optional string: `None` and `""` are falsy. -/
def pyTruthy : Option (List Char) → Bool
  | none => false
  | some s => decide (s ≠ [])

/-- Characters CPython's `urllib.parse` allows inside a URL scheme. -/
def schemeChar (c : Char) : Bool :=
  c.isAlpha || c.isDigit || c = '+' || c = '-' || c = '.'

/-- Split a string at its first colon: `some (before, after)` or `none`. -/
def splitAtColon : List Char → Option (List Char × List Char)
  | [] => none
  | c :: rest =>
    if c = ':' then some ([], rest)
    else
      match splitAtColon rest with
      | none => none
      | some (a, b) => some (c :: a, b)

/-- Whether a string starts with an ASCII letter. -/
def startsAlpha : List Char → Bool
  | [] => false
  | c :: _ => c.isAlpha

/-- Drop a leading `scheme:` from a URL exactly as CPython's `urlsplit`
does: only when the part before the first colon is non-empty, starts with
an ASCII letter and consists of scheme characters. -/
def stripScheme (url : List Char) : List Char :=
  match splitAtColon url with
  | none => url
  | some (bef, aft) =>
      if bef ≠ [] ∧ startsAlpha url ∧ bef.all schemeChar
      then aft else url

/-- `urlparse(url).netloc`: after the scheme is removed, the host part is
the run between a leading `//` and the next `/`, `?` or `#`; a URL without
`//` has an empty netloc. -/
def netlocOf (url : List Char) : List Char :=
  match stripScheme url with
  | '/' :: '/' :: tail => tail.takeWhile (fun c => ¬ (c = '/' ∨ c = '?' ∨ c = '#'))
  | _ => []

/-- Module constant `DATASET_NEWS_CC`. -/
def datasetNewsCc : List Char := "news-cc".toList

/-- Default of module constant `WARC_EXTRACT_DIR`. -/
def warcExtractDirChars : List Char := "warc-extract".toList

/-- Default of module constant `PROCESSED_CONTENT_DIR`. -/
def processedContentDirChars : List Char := "processed-content".toList

/-- Module constant `JSON_OUT_FILE_EXT`. -/
def jsonExtChars : List Char := ".json".toList

/-- The WARC headers `CommonCrawlWarcExtractor.process` reads from a
record; `get_header` yields `None` for a missing header. -/
structure RecHeaders where
  recordId : Option (List Char)
  targetUri : Option (List Char)
  date : Option (List Char)
  contentLength : Option (List Char)
deriving DecidableEq, Repr

/-- One record of the archive stream: its type tag, headers, and its
body decoded as text (the `decode("utf-8", "ignore")` result). -/
structure WarcRecord where
  recType : List Char
  headers : RecHeaders
  body : List Char
deriving DecidableEq, Repr

/-- The constructor arguments of `RecordProcessorWrapper`: one submitted
Stage-1 task. -/
structure RecordTask where
  warcFileName : List Char
  recordId : Option (List Char)
  targetUri : List Char
  contentLength : List Char
  date : Option (List Char)
  domain : List Char
  articleHtml : List Char
deriving DecidableEq, Repr

/-- How the Stage-1 scan loop in `CommonCrawlWarcExtractor.process` ends:
normally, through the early `return` taken on a validation failure, or by
an exception escaping the loop (no handler encloses it). -/
inductive ScanStop where
  | finished
  | earlyReturn
  | raised (e : PyError)
deriving DecidableEq, Repr

/-- Result of the Stage-1 scan: how it stopped, the `num_processed`
counter at that point, and every task submitted to the executor (submitted
tasks run to completion even when the scan stops early, because
`ThreadPoolExecutor.__exit__` waits for them). -/
structure ScanResult where
  stop : ScanStop
  numProcessed : Nat
  tasks : List RecordTask
deriving DecidableEq, Repr

/-- The scan loop of `CommonCrawlWarcExtractor.process` over the record
stream: skips `request` records, validates `response` records (`not
warc_target_uri or int(warc_content_length) <= 0` — the early `return` on
failure ends the whole scan), computes the domain with `urlparse(...).netloc`
and submits one `RecordProcessorWrapper` per passing record.  Record types
other than `request`/`response` fall through the loop body. -/
def extractorScanGo (wfn : List Char) :
    List WarcRecord → Nat → List RecordTask → ScanResult
  | [], n, ts => ⟨.finished, n, ts⟩
  | r :: rest, n, ts =>
    if r.recType = "request".toList then extractorScanGo wfn rest n ts
    else if r.recType = "response".toList then
      if pyTruthy r.headers.targetUri = false then ⟨.earlyReturn, n, ts⟩
      else
        match pyInt r.headers.contentLength with
        | .error e => ⟨.raised e, n, ts⟩
        | .ok v =>
          if v ≤ 0 then ⟨.earlyReturn, n, ts⟩
          else
            let uri := r.headers.targetUri.getD []
            let task : RecordTask :=
              ⟨wfn, r.headers.recordId, uri, r.headers.contentLength.getD [],
               r.headers.date, netlocOf uri, r.body⟩
            extractorScanGo wfn rest (n + 1) (ts ++ [task])
    else extractorScanGo wfn rest n ts

/-- The Stage-1 scan started with an empty accumulator. -/
def extractorScan (wfn : List Char) (records : List WarcRecord) : ScanResult :=
  extractorScanGo wfn records 0 []

/-- The JSON document `RecordProcessorWrapper.process` builds (the `data`
dict, fields in insertion order). -/
structure RawData where
  dataset_id : List Char
  dataset : List Char
  dataset_content_length : List Char
  uri : List Char
  warc_sourced_date : Option (List Char)
  warc_extracted_date : List Char
  domain : List Char
  article_html : List Char
deriving DecidableEq, Repr

/-- What one Stage-1 task does: writes one file, or logs a caught
exception (the `except Exception` message of `RecordProcessorWrapper.process`). -/
inductive TaskOutcome where
  | wrote (dirs : List (List Char)) (fileName : List Char) (data : RawData)
  | logged (msg : List Char)
deriving DecidableEq, Repr

/-- `str(e)` of the `AttributeError` raised by `None.split`. -/
def noneSplitErr : List Char :=
  "'NoneType' object has no attribute 'split'".toList

/-- `warc_record_id.split(":")[-1].split(">")[0]`. -/
def datasetIdOf (rid : List Char) : List Char :=
  (pySplitC '>' ((pySplitC ':' rid).getLastD [])).headD []

/-- The log prefix of `RecordProcessorWrapper.process`'s exception handler:
`'An exception occurred: {}'.format(e)`. -/
def stage1ErrPrefix : List Char := "An exception occurred: ".toList

/-- The try-block body of `RecordProcessorWrapper.process`: derives the
`dataset_id`, builds the `data` dict and the target path
`[warc_file_name, WARC_EXTRACT_DIR, domain] / (dataset_id + ".json")`.
A `None` record id raises `AttributeError` at `.split`.  `now` is the
already-formatted `datetime.now().strftime('%Y-%m-%dT%H:%M:%SZ')` of the
moment the task runs. -/
def recordTaskBody (t : RecordTask) (now : List Char) :
    Except PyError (List (List Char) × List Char × RawData) :=
  match t.recordId with
  | none => .error (.attributeError noneSplitErr)
  | some rid =>
    let did := datasetIdOf rid
    let d : RawData :=
      ⟨did, datasetNewsCc, t.contentLength, t.targetUri, t.date, now,
       t.domain, t.articleHtml⟩
    .ok ([t.warcFileName, warcExtractDirChars, t.domain], did ++ jsonExtChars, d)

/-- `RecordProcessorWrapper.process`: the try-block body with its
catch-all `except Exception` handler wrapped around it. -/
def recordTaskRun (t : RecordTask) (now : List Char) : TaskOutcome :=
  match recordTaskBody t now with
  | .ok (dirs, fn, d) => .wrote dirs fn d
  | .error e => .logged (stage1ErrPrefix ++ pyErrStr e)

/-- One whole Stage-1 invocation: the scan plus the outcome of every
submitted task (all submitted tasks complete — the executor's context
manager waits for them — even when the scan stopped early or raised). -/
structure Stage1Run where
  scan : ScanResult
  taskResults : List TaskOutcome
deriving DecidableEq, Repr

/-- Stage 1 end to end: `aborted` is the exception escaping
`CommonCrawlWarcExtractor.process` (nothing in `__main__` catches it, so it
ends the Python process); the side effects in `run` happened either way. -/
structure Stage1Main where
  aborted : Option PyError
  run : Stage1Run
deriving DecidableEq, Repr

/-- The exception escaping `CommonCrawlWarcExtractor.process`, when the
scan raised one. -/
def stage1Aborted (s : ScanResult) : Option PyError :=
  match s.stop with
  | .raised e => some e
  | _ => none

/-- `CommonCrawlWarcExtractor.process` applied to a record stream at a
given task-run time `now`. -/
def stage1Main (wfn : List Char) (records : List WarcRecord) (now : List Char) :
    Stage1Main :=
  let s := extractorScan wfn records
  ⟨stage1Aborted s, s, s.tasks.map (fun t => recordTaskRun t now)⟩

/-- Escape one character as `json.dumps` does for the text this pipeline
carries (quote and backslash; faithful for strings without control
characters, which is all the sample data used below). -/
def jsonEscapeChar (c : Char) : List Char :=
  if c = '"' then ['\\', '"'] else if c = '\\' then ['\\', '\\'] else [c]

/-- JSON escaping of a whole string. -/
def jsonEscape (s : List Char) : List Char :=
  s.foldr (fun c acc => jsonEscapeChar c ++ acc) []

/-- A JSON string literal. -/
def jstr (s : List Char) : List Char := '"' :: (jsonEscape s ++ ['"'])

/-- A nullable JSON string. -/
def jopt : Option (List Char) → List Char
  | none => "null".toList
  | some s => jstr s

/-- `"key": value` with `json.dumps`'s default `': '` separator. -/
def jfield (k : List Char) (v : List Char) : List Char :=
  jstr k ++ (':' :: ' ' :: v)

/-- `json.dumps` of the Stage-1 `data` dict: keys in insertion order,
default `', '` item separator, braces around the object. -/
def rawCaptureJson (d : RawData) : List Char :=
  '\x7b' ::
    (jfield "dataset_id".toList (jstr d.dataset_id) ++ ", ".toList ++
     jfield "dataset".toList (jstr d.dataset) ++ ", ".toList ++
     jfield "dataset_content_length".toList (jstr d.dataset_content_length) ++ ", ".toList ++
     jfield "uri".toList (jstr d.uri) ++ ", ".toList ++
     jfield "warc_sourced_date".toList (jopt d.warc_sourced_date) ++ ", ".toList ++
     jfield "warc_extracted_date".toList (jstr d.warc_extracted_date) ++ ", ".toList ++
     jfield "domain".toList (jstr d.domain) ++ ", ".toList ++
     jfield "article_html".toList (jstr d.article_html) ++ ['\x7d'])

/-- The serialized bytes of every file a list of task outcomes wrote. -/
def writeJsons (outs : List TaskOutcome) : List (List Char) :=
  outs.filterMap fun o =>
    match o with
    | .wrote _ _ d => some (rawCaptureJson d)
    | .logged _ => none

/-- The `domain` field of every stored Stage-1 document. -/
def storedDomains (outs : List TaskOutcome) : List (List Char) :=
  outs.filterMap fun o =>
    match o with
    | .wrote _ _ d => some d.domain
    | .logged _ => none

/-- How many files a list of task outcomes wrote. -/
def writeCount (outs : List TaskOutcome) : Nat := (writeJsons outs).length

/-- Blank out the run-time-dependent `warc_extracted_date` field of a
stored document, leaving everything else. -/
def maskOutcome : TaskOutcome → TaskOutcome
  | .wrote dirs fn d => .wrote dirs fn { d with warc_extracted_date := [] }
  | .logged m => .logged m

/-- A Python `datetime` as the fields `strftime` reads. -/
structure PyDateTime where
  year : Nat
  month : Nat
  day : Nat
  hour : Nat
  minute : Nat
  second : Nat
deriving DecidableEq, Repr

/-- Zero-pad a decimal rendering to width `w`. -/
def padZeros (w : Nat) (n : Nat) : List Char :=
  let s := Nat.toDigits 10 n
  List.replicate (w - s.length) '0' ++ s

/-- `d.strftime('%Y-%m-%dT%H:%M:%SZ')`. -/
def strftimeISO (d : PyDateTime) : List Char :=
  padZeros 4 d.year ++ ('-' :: padZeros 2 d.month) ++ ('-' :: padZeros 2 d.day) ++
  ('T' :: padZeros 2 d.hour) ++ (':' :: padZeros 2 d.minute) ++
  (':' :: padZeros 2 d.second) ++ ['Z']

/-- Value of an ASCII digit. -/
def digitVal (c : Char) : Nat := c.toNat - 48

/-- Pydantic v1's coercion of a string into a `datetime` field, restricted
to the one shape this pipeline feeds it (`YYYY-MM-DDTHH:MM:SSZ`); out-of-range
calendar fields are rejected as pydantic would reject them. -/
def parseISOZ : List Char → Option PyDateTime
  | [y1, y2, y3, y4, s1, o1, o2, s2, a1, a2, st, h1, h2, c1, i1, i2, c2, e1, e2, z] =>
    if s1 = '-' ∧ s2 = '-' ∧ st = 'T' ∧ c1 = ':' ∧ c2 = ':' ∧ z = 'Z' ∧
       [y1, y2, y3, y4, o1, o2, a1, a2, h1, h2, i1, i2, e1, e2].all Char.isDigit then
      let y := digitVal y1 * 1000 + digitVal y2 * 100 + digitVal y3 * 10 + digitVal y4
      let mo := digitVal o1 * 10 + digitVal o2
      let da := digitVal a1 * 10 + digitVal a2
      let ho := digitVal h1 * 10 + digitVal h2
      let mi := digitVal i1 * 10 + digitVal i2
      let se := digitVal e1 * 10 + digitVal e2
      if 1 ≤ y ∧ 1 ≤ mo ∧ mo ≤ 12 ∧ 1 ≤ da ∧ da ≤ 31 ∧ ho ≤ 23 ∧ mi ≤ 59 ∧ se ≤ 59 then
        some ⟨y, mo, da, ho, mi, se⟩
      else none
    else none
  | _ => none

/-- The fields `NewsPleaseAdapter` reads off the news-please article object
(external collaborator B, at exactly the interface the adapter uses);
`date_publish` is `None` when the extractor found no publish date. -/
structure NewsItem where
  title : List Char
  authors : List (List Char)
  maintext : List Char
  description : Option (List Char)
  image_url : Option (List Char)
  language : List Char
  date_publish : Option PyDateTime
deriving DecidableEq, Repr

/-- The dict `NewsPleaseAdapter._process_article` returns: `published_date`
is the `strftime`-formatted string when a date is present and `None`
otherwise; `content_length` is `len(maintext)`; `domain` is recomputed
from the adapter's `url`. -/
structure ProcessedDict where
  title : List Char
  authors : List (List Char)
  content : List Char
  excerpt : Option (List Char)
  content_length : Nat
  published_date : Option (List Char)
  url : List Char
  domain : List Char
  media : Option (List Char)
  language : List Char
deriving DecidableEq, Repr

/-- `NewsPleaseAdapter._process_article` for an adapter built with this
article and url. -/
def processArticleDict (item : NewsItem) (url : List Char) : ProcessedDict :=
  ⟨item.title, item.authors, item.maintext, item.description,
   item.maintext.length, item.date_publish.map strftimeISO, url,
   netlocOf url, item.image_url, item.language⟩

/-- The validated pydantic `Article` model as declared in the source:
`published_date : datetime` is a required, non-`None` field. -/
structure Article where
  url : List Char
  title : List Char
  authors : List (List Char)
  content : List Char
  excerpt : Option (List Char)
  content_length : Nat
  published_date : PyDateTime
  language : List Char
  domain : List Char
  media : Option (List Char)
deriving DecidableEq, Repr

/-- `str(e)` of the pydantic `ValidationError` for a `None`
`published_date` (v1's `type_error.none.not_allowed`). -/
def pydanticNoneErr : List Char :=
  "1 validation error for Article: published_date: none is not an allowed value".toList

/-- `str(e)` of the pydantic `ValidationError` for an unparseable
`published_date` string. -/
def pydanticFormatErr : List Char :=
  "1 validation error for Article: published_date: invalid datetime format".toList

/-- `Article(**dict)`: pydantic v1 validation of the adapter's dict against
the `Article` model.  `published_date` is declared `datetime` with no
default and no `Optional`, so `None` raises `ValidationError`; a string is
coerced by parsing. -/
def articleOfDict (d : ProcessedDict) : Except PyError Article :=
  match d.published_date with
  | none => .error (.validationError pydanticNoneErr)
  | some s =>
    match parseISOZ s with
    | none => .error (.validationError pydanticFormatErr)
    | some dt =>
      .ok ⟨d.url, d.title, d.authors, d.content, d.excerpt, d.content_length,
           dt, d.language, d.domain, d.media⟩

/-- The Stage-1 document as `ContentProcessorWrapper.process_warc_content`
reads it back from JSON (the fields it accesses). -/
structure WarcExtract where
  uri : List Char
  domain : List Char
  dataset_id : List Char
  article_html : List Char
  dataset : List Char
  dataset_content_length : List Char
  warc_sourced_date : Option (List Char)
  warc_extracted_date : List Char
deriving DecidableEq, Repr

/-- The `meta_info` dict built in `process_warc_content`. -/
structure MetaInfo where
  dataset_id : List Char
  dataset : List Char
  dataset_content_length : List Char
  warc_sourced_date : Option (List Char)
  warc_extracted_date : List Char
  warc_processed_date : List Char
deriving DecidableEq, Repr

/-- The final `article_json` document Stage 2 writes: `article.dict()` with
`published_date` re-formatted to a string and `meta_info` attached. -/
structure ArticleJson where
  url : List Char
  title : List Char
  authors : List (List Char)
  content : List Char
  excerpt : Option (List Char)
  content_length : Nat
  published_date : Option (List Char)
  language : List Char
  domain : List Char
  media : Option (List Char)
  meta_info : MetaInfo
deriving DecidableEq, Repr

/-- The module-level skip list `stop_sites` (initialized empty, never
mutated anywhere in the source). -/
def stop_sites : List (List Char) := []

/-- How one Stage-2 task ends: skipped on the stop list, one file written,
or a caught exception logged. -/
inductive Stage2Outcome where
  | skippedStopSite (msg : List Char)
  | wrote (dirs : List (List Char)) (fileName : List Char) (doc : ArticleJson)
  | errorLogged (msg : List Char)
deriving DecidableEq, Repr

/-- The log prefix of `process_warc_content`'s exception handler:
`f'exception occurred processing warc file: {self.file_name} -> {e}'`. -/
def stage2ErrPrefix : List Char := "exception occurred processing warc file: ".toList

/-- The fallible part of `process_warc_content` after the stop-list check:
the news-please call (whose own failure arrives as `.error`), the pydantic
`Article` construction, the `meta_info` dict, and the final document and
path.  `article.dict()['published_date']` is a `datetime` (validation
guarantees non-`None`, and a `datetime` is always truthy), so it is always
re-formatted with `strftime`. -/
def stage2Body (rootDir : List Char) (we : WarcExtract)
    (itemE : Except PyError NewsItem) (now : List Char) :
    Except PyError (List (List Char) × List Char × ArticleJson) :=
  match itemE with
  | .error e => .error e
  | .ok item =>
    match articleOfDict (processArticleDict item we.uri) with
    | .error e => .error e
    | .ok a =>
      let meta : MetaInfo :=
        ⟨we.dataset_id, we.dataset, we.dataset_content_length,
         we.warc_sourced_date, we.warc_extracted_date, now⟩
      let doc : ArticleJson :=
        ⟨a.url, a.title, a.authors, a.content, a.excerpt, a.content_length,
         some (strftimeISO a.published_date), a.language, a.domain, a.media, meta⟩
      .ok ([rootDir, processedContentDirChars, we.domain],
           we.dataset_id ++ jsonExtChars, doc)

/-- `ContentProcessorWrapper.process_warc_content`: the stop-list check,
then the fallible body under the catch-all `except Exception` handler.
`fileName` is the Stage-1 file's path (used in the error log), `rootDir`
the run root, `we` the decoded Stage-1 document, `itemE` what
`NewsPlease.from_html` produced, `now` the formatted
`datetime.now()` of the task. -/
def processWarcContent (fileName rootDir : List Char) (we : WarcExtract)
    (itemE : Except PyError NewsItem) (now : List Char) : Stage2Outcome :=
  if we.domain ∈ stop_sites then
    .skippedStopSite
      ("WARNING: did not extract content for: ".toList ++ we.uri ++
       "... domain in stop list".toList)
  else
    match stage2Body rootDir we itemE now with
    | .ok (dirs, fn, doc) => .wrote dirs fn doc
    | .error e => .errorLogged (stage2ErrPrefix ++ fileName ++ " -> ".toList ++ pyErrStr e)

/-- Whether a Stage-2 outcome wrote a file. -/
def isWroteOutcome : Stage2Outcome → Bool
  | .wrote _ _ _ => true
  | _ => false

/-- Whether a Stage-2 outcome is the stop-list skip. -/
def isSkippedOutcome : Stage2Outcome → Bool
  | .skippedStopSite _ => true
  | _ => false

/-- The `published_date` field of the written document, when one was
written. -/
def publishedDateOf : Stage2Outcome → Option (Option (List Char))
  | .wrote _ _ doc => some doc.published_date
  | _ => none

/-- Result of the identical `__main__` argument handling of both stage
scripts. -/
inductive CliOutcome where
  | proceed (path : List Char)
  | exited (code : Nat) (printedUsage : Bool)
deriving DecidableEq, Repr

/-- argparse's lookup of the value following `--warc-file-path` in the
argument vector (the space-separated form; `none` covers both a missing
flag and a flag with no value, each an argparse parse error). -/
def lookupWarcPathArg : List (List Char) → Option (List Char)
  | [] => none
  | [_] => none
  | x :: y :: rest =>
    if x = "--warc-file-path".toList then some y
    else lookupWarcPathArg (y :: rest)

/-- The `__main__` argument handling shared verbatim by both stage
scripts: one required option `--warc-file-path`.  Modelled from argparse's
documented behavior: a parse error (such as the required argument missing)
prints the usage message and calls `sys.exit(2)`.  The script's own
`if not args.warc_file_path` check is reached only when argparse succeeded,
so it fires — printing help and calling `exit(1)` — only when the argument
was supplied as the empty string. -/
def warcCliGate (argv : List (List Char)) : CliOutcome :=
  match lookupWarcPathArg argv with
  | none => .exited 2 true
  | some v => if v = [] then .exited 1 true else .proceed v

/-! Concrete sample inputs the theorems below evaluate the model on. -/

/-- Run root for the C1 scenario. -/
def wfn1 : List Char := "/data/CC-NEWS-A".toList

/-- Task-run timestamp for the C1 scenario. -/
def now1 : List Char := "2021-03-01T10:00:00Z".toList

/-- A valid response record appearing before the invalid one. -/
def recA1 : WarcRecord :=
  ⟨"response".toList,
   ⟨some "<urn:uuid:aaa-1>".toList, some "http://a.example.com/1".toList,
    some "2021-02-01T00:00:00Z".toList, some "120".toList⟩,
   "<html>A</html>".toList⟩

/-- An invalid response record: its target URI header is missing. -/
def recB1 : WarcRecord :=
  ⟨"response".toList,
   ⟨some "<urn:uuid:bbb-2>".toList, none,
    some "2021-02-01T00:01:00Z".toList, some "130".toList⟩,
   "<html>B</html>".toList⟩

/-- A valid response record appearing after the invalid one. -/
def recC1 : WarcRecord :=
  ⟨"response".toList,
   ⟨some "<urn:uuid:ccc-3>".toList, some "http://c.example.com/3".toList,
    some "2021-02-01T00:02:00Z".toList, some "99".toList⟩,
   "<html>C</html>".toList⟩

/-- Run root for the C4 scenario. -/
def wfn4 : List Char := "/data/CC-NEWS-D".toList

/-- First run's timestamp for the C4 scenario. -/
def now4a : List Char := "2021-04-01T00:00:00Z".toList

/-- Second run's timestamp for the C4 scenario. -/
def now4b : List Char := "2021-04-02T12:34:56Z".toList

/-- A single valid response record for the C4 scenario. -/
def rec4 : WarcRecord :=
  ⟨"response".toList,
   ⟨some "<urn:uuid:dddd-4>".toList, some "http://d.example.com/4".toList,
    some "2021-02-01T00:03:00Z".toList, some "77".toList⟩,
   "<html>D</html>".toList⟩

/-- Run root for the C6 scenarios. -/
def wfn6 : List Char := "/data/CC-NEWS-E".toList

/-- Task-run timestamp for the C6 scenarios. -/
def now6 : List Char := "2021-05-01T00:00:00Z".toList

/-- A response record whose URI has no scheme and no `//`, so
`urlparse(...).netloc` is empty. -/
def rec6 : WarcRecord :=
  ⟨"response".toList,
   ⟨some "<urn:uuid:e-55>".toList, some "news.example.com/a".toList,
    some "2021-02-01T00:04:00Z".toList, some "120".toList⟩,
   "<html>E</html>".toList⟩

/-- A normal response record for the C6 witness. -/
def rec6w : WarcRecord :=
  ⟨"response".toList,
   ⟨some "<urn:uuid:x-66>".toList, some "http://news.example.com/a".toList,
    some "2021-02-01T00:05:00Z".toList, some "120".toList⟩,
   "<html>F</html>".toList⟩

/-- Directory path `rec6w`'s task writes under. -/
def dirs6w : List (List Char) :=
  [wfn6, warcExtractDirChars, "news.example.com".toList]

/-- File name `rec6w`'s task writes. -/
def fn6w : List Char := "x-66.json".toList

/-- The document `rec6w`'s task stores. -/
def raw6w : RawData :=
  ⟨"x-66".toList, datasetNewsCc, "120".toList, "http://news.example.com/a".toList,
   some "2021-02-01T00:05:00Z".toList, now6, "news.example.com".toList,
   "<html>F</html>".toList⟩

/-- Run root for the C8 scenario. -/
def wfn8 : List Char := "/data/CC-NEWS-G".toList

/-- Task-run timestamp for the C8 scenario. -/
def now8 : List Char := "2021-06-01T00:00:00Z".toList

/-- A Stage-1 task whose record identifier is `"<urn:uuid:abcd-1234>"`. -/
def task8 : RecordTask :=
  ⟨wfn8, some "<urn:uuid:abcd-1234>".toList, "http://news.example.com/a".toList,
   "120".toList, some "2021-02-01T00:06:00Z".toList, "news.example.com".toList,
   "<html><title>Hi</title></html>".toList⟩

/-- The document `task8` stores. -/
def raw8 : RawData :=
  ⟨"abcd-1234".toList, datasetNewsCc, "120".toList,
   "http://news.example.com/a".toList, some "2021-02-01T00:06:00Z".toList,
   now8, "news.example.com".toList, "<html><title>Hi</title></html>".toList⟩

/-- Run root for the C9 scenario. -/
def wfn9 : List Char := "/data/CC-NEWS-H".toList

/-- Task-run timestamp for the C9 scenario. -/
def now9 : List Char := "2021-07-01T00:00:00Z".toList

/-- A response record with a target URI but no Content-Length header. -/
def rec9a : WarcRecord :=
  ⟨"response".toList,
   ⟨some "<urn:uuid:h-77>".toList, some "http://h.example.com/7".toList,
    some "2021-02-01T00:07:00Z".toList, none⟩,
   "<html>H</html>".toList⟩

/-- A response record with a target URI and a non-numeric Content-Length. -/
def rec9b : WarcRecord :=
  ⟨"response".toList,
   ⟨some "<urn:uuid:h-78>".toList, some "http://h.example.com/8".toList,
    some "2021-02-01T00:08:00Z".toList, some "abc".toList⟩,
   "<html>I</html>".toList⟩

/-- Task-run timestamp for the C5 counterexample. -/
def now5 : List Char := "2021-08-01T00:00:00Z".toList

/-- A Stage-1 task whose record identifier header was missing, so its body
raises `AttributeError` at `None.split`. -/
def task5 : RecordTask :=
  ⟨"/data/CC-NEWS-K".toList, none, "http://news.example.com/a".toList,
   "120".toList, some "2021-02-01T00:09:00Z".toList, "news.example.com".toList,
   "<html>K</html>".toList⟩

/-- The log message `task5`'s run produces. -/
def msg5 : List Char := stage1ErrPrefix ++ noneSplitErr

/-- Stage-1 file path for the C2 witness scenario. -/
def fn2 : List Char := "/data/CC-NEWS-A/warc-extract/news.example.com/abcd-1234.json".toList

/-- Run root for the C2 witness scenario. -/
def root2 : List Char := "/data/CC-NEWS-A".toList

/-- Stage-2 task timestamp for the C2 witness scenario. -/
def now2 : List Char := "2021-09-01T00:00:00Z".toList

/-- A Stage-1 document read back for the C2 witness scenario. -/
def sampleWe2 : WarcExtract :=
  ⟨"http://news.example.com/a".toList, "news.example.com".toList,
   "abcd-1234".toList, "<html><title>Hi</title></html>".toList, datasetNewsCc,
   "120".toList, some "2021-02-01T00:06:00Z".toList, "2021-03-01T10:00:00Z".toList⟩

/-- A news-please result carrying a publish date. -/
def item2d : NewsItem :=
  ⟨"Hi".toList, ["Ann Author".toList], "Body text.".toList,
   some "A description".toList, some "http://news.example.com/i.png".toList,
   "en".toList, some ⟨2021, 1, 2, 3, 4, 5⟩⟩

/-- Stage-1 file path for the C2 counterexample scenario. -/
def fn2c : List Char := "/data/CC-NEWS-B/warc-extract/b.example.com/b-22.json".toList

/-- Run root for the C2 counterexample scenario. -/
def root2c : List Char := "/data/CC-NEWS-B".toList

/-- Stage-2 task timestamp for the C2 counterexample scenario. -/
def now2c : List Char := "2021-09-02T00:00:00Z".toList

/-- A Stage-1 document read back for the C2 counterexample scenario. -/
def sampleWe2c : WarcExtract :=
  ⟨"http://b.example.com/22".toList, "b.example.com".toList,
   "b-22".toList, "<html>b</html>".toList, datasetNewsCc,
   "140".toList, some "2021-02-02T00:00:00Z".toList, "2021-03-02T10:00:00Z".toList⟩

/-- A news-please result with no publish date. -/
def item2nd : NewsItem :=
  ⟨"B title".toList, [], "B body.".toList, none, none, "en".toList, none⟩

/-- Stage-1 file path for the C3 scenario. -/
def fn3 : List Char := "/data/CC-NEWS-C/warc-extract/c.example.com/c-33.json".toList

/-- Run root for the C3 scenario. -/
def root3 : List Char := "/data/CC-NEWS-C".toList

/-- Stage-2 task timestamp for the C3 scenario. -/
def now3 : List Char := "2021-09-03T00:00:00Z".toList

/-- A Stage-1 document read back for the C3 scenario. -/
def we3 : WarcExtract :=
  ⟨"http://c.example.com/33".toList, "c.example.com".toList,
   "c-33".toList, "<html>c</html>".toList, datasetNewsCc,
   "150".toList, some "2021-02-03T00:00:00Z".toList, "2021-03-03T10:00:00Z".toList⟩

/-- A news-please result with a publish date, for the C3 scenario. -/
def item3d : NewsItem :=
  ⟨"C title".toList, ["Cleo Writer".toList], "C body.".toList,
   none, none, "en".toList, some ⟨2020, 5, 6, 7, 8, 9⟩⟩

/-- A news-please result with no publish date, for the C3 scenario. -/
def item3nd : NewsItem :=
  ⟨"C title".toList, [], "C body.".toList, none, none, "en".toList, none⟩

/-! Theorems settling the claims. -/

/-- C1: the claim says a response record with a missing target URI (or
non-positive length) is logged and skipped with the scan continuing, so
that later valid records are still extracted.  Evaluating the embedded
scan on `[recA1, recB1, recC1]` — where only `recB1` is invalid — shows
the code instead takes the early `return`: the scan stops at `recB1` and
the later valid record `recC1` is never submitted or stored; only the one
task submitted before the invalid record ran. -/
theorem c1_invalid_record_aborts_scan :
    (stage1Main wfn1 [recA1, recB1, recC1] now1).run.scan.stop = ScanStop.earlyReturn ∧
    (stage1Main wfn1 [recA1, recB1, recC1] now1).run.scan.tasks.map RecordTask.targetUri =
      ["http://a.example.com/1".toList] ∧
    writeCount (stage1Main wfn1 [recA1, recB1, recC1] now1).run.taskResults = 1 := by
  decide

/-- C8: for the unique record identifier `"<urn:uuid:abcd-1234>"`, the
derived `dataset_id` is `"abcd-1234"`, it is the storage file name
(`abcd-1234.json`) and it is stored in the record's `dataset_id` field. -/
theorem c8_record_id_derivation :
    datasetIdOf "<urn:uuid:abcd-1234>".toList = "abcd-1234".toList ∧
    recordTaskRun task8 now8 =
      TaskOutcome.wrote [wfn8, warcExtractDirChars, "news.example.com".toList]
        "abcd-1234.json".toList raw8 ∧
    raw8.dataset_id = "abcd-1234".toList := by
  decide

/-- C9: a response record with a present target URI but a missing
Content-Length header (`rec9a`) makes `int(warc_content_length)` raise an
exception the scan loop does not catch, so the whole run aborts
(`aborted ≠ none`) instead of ending in the validation early-return; the
same holds for a non-numeric header (`rec9b`). -/
theorem c9_bad_length_uncaught_aborts_run :
    (stage1Main wfn9 [rec9a] now9).aborted ≠ none ∧
    (stage1Main wfn9 [rec9a] now9).run.scan.stop ≠ ScanStop.earlyReturn ∧
    (stage1Main wfn9 [rec9b] now9).aborted ≠ none ∧
    (stage1Main wfn9 [rec9b] now9).run.scan.stop ≠ ScanStop.earlyReturn := by
  decide

/-- C6 counterexample: the record `rec6` has the scheme-less target URI
`"news.example.com/a"`, whose parsed host is empty; the claim says such a
record is a validation failure and produces no stored record, but the scan
finishes normally and stores the record with an empty `domain` field. -/
theorem c6_counterexample_empty_domain_stored :
    (stage1Main wfn6 [rec6] now6).run.scan.stop = ScanStop.finished ∧
    storedDomains (stage1Main wfn6 [rec6] now6).run.taskResults = [[]] := by
  decide

/-- C4 counterexample: the same single-record archive run at two different
wall-clock times stores documents whose serialized bytes differ (the
`warc_extracted_date` field records the run time), refuting byte-for-byte
identical re-runs. -/
theorem c4_counterexample_rerun_bytes_differ :
    writeJsons (stage1Main wfn4 [rec4] now4a).run.taskResults ≠
    writeJsons (stage1Main wfn4 [rec4] now4b).run.taskResults := by
  decide

/-- C7 counterexample: invoking either stage's CLI with no arguments (the
required `--warc-file-path` missing) prints usage and exits with argparse's
status 2, not the claimed exit code 1. -/
theorem c7_counterexample_missing_arg_exit_code :
    warcCliGate [] = CliOutcome.exited 2 true ∧ (2 : Nat) ≠ 1 := by
  decide

/-- C5 counterexample: the Stage-1 task `task5` (missing record-identifier
header) fails inside the task body; the caught exception is logged, but
the log message is `'An exception occurred: ...'` and contains neither the
task's target URI nor its domain — no identifying key of the task. -/
theorem c5_counterexample_stage1_log_lacks_key :
    recordTaskRun task5 now5 = TaskOutcome.logged msg5 ∧
    containsChars task5.targetUri msg5 = false ∧
    containsChars task5.domain msg5 = false := by
  decide

/-- C2 counterexample: `sampleWe2c`'s domain is not in the skip set, yet
Stage 2 writes no ArticleRecord for it: the news-please result `item2nd`
has no publish date, the pydantic `Article` model rejects the `None`
`published_date`, and the record is dropped. -/
theorem c2_counterexample_missing_date_no_write :
    sampleWe2c.domain ∉ stop_sites ∧
    isWroteOutcome (processWarcContent fn2c root2c sampleWe2c (Except.ok item2nd) now2c)
      = false := by
  decide

/-- C3: when the extractor returns no publish date (`item3nd`), no
ArticleRecord is produced at all — the pydantic validation error is caught
and logged and the record is dropped — contradicting the claim that a
record with a null `published_date` is still written; when a publish date
is present (`item3d`, 2020-05-06 07:08:09), the stored field is the
ISO-8601 UTC string `"2020-05-06T07:08:09Z"`. -/
theorem c3_absent_date_drops_record :
    isWroteOutcome (processWarcContent fn3 root3 we3 (Except.ok item3nd) now3) = false ∧
    processWarcContent fn3 root3 we3 (Except.ok item3nd) now3 =
      Stage2Outcome.errorLogged
        (stage2ErrPrefix ++ fn3 ++ " -> ".toList ++ pydanticNoneErr) ∧
    publishedDateOf (processWarcContent fn3 root3 we3 (Except.ok item3d) now3) =
      some (some "2020-05-06T07:08:09Z".toList) := by
  decide

/-- Every task the scan accumulates has its `domain` computed as
`urlparse(target_uri).netloc`, provided the accumulator already does. -/
theorem scanGo_task_domain (wfn : List Char) (records : List WarcRecord) :
    ∀ (n : Nat) (acc : List RecordTask),
      (∀ t ∈ acc, t.domain = netlocOf t.targetUri) →
      ∀ t ∈ (extractorScanGo wfn records n acc).tasks, t.domain = netlocOf t.targetUri := by
  induction records with
  | nil =>
    intro n acc hacc
    simpa [extractorScanGo] using hacc
  | cons r rest ih =>
    intro n acc hacc
    simp only [extractorScanGo]
    split
    · exact ih n acc hacc
    · split
      · split
        · simpa using hacc
        · split
          · simpa using hacc
          · split
            · simpa using hacc
            · refine ih _ _ ?_
              intro t ht
              rcases List.mem_append.mp ht with h | h
              · exact hacc t h
              · simp only [List.mem_singleton] at h
                subst h
                rfl
      · exact ih n acc hacc

/-- C6 (amended): every document Stage 1 stores has `domain` equal to the
host component (`urlparse(...).netloc`) of its `uri`; the host may however
be empty — an empty or unparseable host is not a validation failure and
the record is still stored (see the counterexample). -/
theorem c6_amended_domain_is_netloc (wfn : List Char) (records : List WarcRecord)
    (now : List Char) (dirs : List (List Char)) (fn : List Char) (d : RawData)
    (h : TaskOutcome.wrote dirs fn d ∈ (stage1Main wfn records now).run.taskResults) :
    d.domain = netlocOf d.uri := by
  have h' : ∃ t ∈ (extractorScan wfn records).tasks,
      recordTaskRun t now = TaskOutcome.wrote dirs fn d := List.mem_map.mp h
  rcases h' with ⟨t, ht, hrun⟩
  have hd : t.domain = netlocOf t.targetUri :=
    scanGo_task_domain wfn records 0 [] (by simp) t ht
  cases hid : t.recordId with
  | none => simp [recordTaskRun, recordTaskBody, hid] at hrun
  | some rid =>
    simp only [recordTaskRun, recordTaskBody, hid] at hrun
    have hdata : d = ⟨datasetIdOf rid, datasetNewsCc, t.contentLength, t.targetUri,
        t.date, now, t.domain, t.articleHtml⟩ := by
      cases hrun
      rfl
    subst hdata
    simpa using hd

/-- C6 witness: the amended theorem applied to the concrete one-record run
on `rec6w`, whose stored document is `raw6w`. -/
theorem c6_amended_domain_is_netloc_witness :
    TaskOutcome.wrote dirs6w fn6w raw6w ∈
      (stage1Main wfn6 [rec6w] now6).run.taskResults ∧
    raw6w.domain = netlocOf raw6w.uri :=
  ⟨by decide,
   c6_amended_domain_is_netloc wfn6 [rec6w] now6 dirs6w fn6w raw6w (by decide)⟩

/-- C10: the Stage-2 skip list `stop_sites` is the empty list (and, being
a Lean constant, never mutated), so no input ever takes the
skip-listed-domain branch of `process_warc_content`: every scanned record
proceeds past the stop-list check to the article-extraction collaborator. -/
theorem c10_stop_sites_empty_branch_unreachable :
    stop_sites = [] ∧
    ∀ (fileName rootDir : List Char) (we : WarcExtract)
      (itemE : Except PyError NewsItem) (now : List Char),
      isSkippedOutcome (processWarcContent fileName rootDir we itemE now) = false := by
  refine ⟨rfl, ?_⟩
  intro fileName rootDir we itemE now
  simp only [processWarcContent, stop_sites, List.not_mem_nil, if_false]
  cases stage2Body rootDir we itemE now with
  | error e => rfl
  | ok v =>
    obtain ⟨dirs, fn, doc⟩ := v
    rfl

/-- C7 (amended): for either stage's CLI, a missing required
`--warc-file-path` argument makes argparse print usage and exit with
status 2 (not 1; the script's own `exit(1)` branch is reachable only when
the argument is supplied as an empty string). -/
theorem c7_amended_missing_arg_exits_two :
    (∀ argv : List (List Char),
       lookupWarcPathArg argv = none → warcCliGate argv = CliOutcome.exited 2 true) ∧
    warcCliGate [] = CliOutcome.exited 2 true ∧
    warcCliGate ["--warc-file-path".toList] = CliOutcome.exited 2 true := by
  refine ⟨?_, by decide, by decide⟩
  intro argv h
  simp [warcCliGate, h]

/-- A Stage-1 task's outcome is independent of the run timestamp once the
`warc_extracted_date` field is blanked. -/
theorem maskOutcome_taskRun (t : RecordTask) (n1 n2 : List Char) :
    maskOutcome (recordTaskRun t n1) = maskOutcome (recordTaskRun t n2) := by
  cases h : t.recordId <;> simp [recordTaskRun, recordTaskBody, h, maskOutcome]

/-- C4 (amended): re-running Stage 1 over an unchanged archive is
deterministic up to the `warc_extracted_date` stamp: two runs with the
same formatted timestamp produce identical output, any two runs produce
outputs identical once that field is blanked, and the scan itself (which
records are stored, under which keys) does not depend on the run time.
Byte-for-byte identical output therefore holds only when the two runs
format the same timestamp (see the counterexample). -/
theorem c4_amended_deterministic_up_to_timestamp :
    (∀ (wfn : List Char) (records : List WarcRecord) (t1 t2 : List Char),
       t1 = t2 → stage1Main wfn records t1 = stage1Main wfn records t2) ∧
    (∀ (wfn : List Char) (records : List WarcRecord) (t1 t2 : List Char),
       (stage1Main wfn records t1).run.taskResults.map maskOutcome =
       (stage1Main wfn records t2).run.taskResults.map maskOutcome) ∧
    (∀ (wfn : List Char) (records : List WarcRecord) (t : List Char),
       (stage1Main wfn records t).run.scan = extractorScan wfn records) := by
  refine ⟨?_, ?_, ?_⟩
  · intro wfn records t1 t2 h
    rw [h]
  · intro wfn records t1 t2
    show ((extractorScan wfn records).tasks.map (fun t => recordTaskRun t t1)).map maskOutcome
        = ((extractorScan wfn records).tasks.map (fun t => recordTaskRun t t2)).map maskOutcome
    rw [List.map_map, List.map_map]
    refine List.map_congr_left ?_
    intro t _
    simpa using maskOutcome_taskRun t t1 t2
  · intro wfn records t
    rfl

/-- C5 (amended): the orchestrators run every submitted task to an outcome
(one outcome per submitted task, so a failing task aborts neither its
siblings nor the run), a Stage-1 task whose body raises is caught at the
task boundary and logged — though with the message
`'An exception occurred: ...'`, which carries no identifying key (see the
counterexample) — and a Stage-2 task failure is logged with the task's
file path as its key. -/
theorem c5_task_failures_isolated_and_logged :
    (∀ (wfn : List Char) (records : List WarcRecord) (now : List Char),
       (stage1Main wfn records now).run.taskResults.length =
       (stage1Main wfn records now).run.scan.tasks.length) ∧
    (∀ (t : RecordTask) (now : List Char) (e : PyError),
       recordTaskBody t now = .error e →
       recordTaskRun t now = TaskOutcome.logged (stage1ErrPrefix ++ pyErrStr e)) ∧
    (∀ (fileName rootDir : List Char) (we : WarcExtract)
       (itemE : Except PyError NewsItem) (now m : List Char),
       processWarcContent fileName rootDir we itemE now = Stage2Outcome.errorLogged m →
       ∃ tail, m = stage2ErrPrefix ++ fileName ++ tail) := by
  refine ⟨?_, ?_, ?_⟩
  · intro wfn records now
    simp [stage1Main]
  · intro t now e h
    simp [recordTaskRun, h]
  · intro fileName rootDir we itemE now m h
    simp only [processWarcContent, stop_sites, List.not_mem_nil, if_false] at h
    cases hb : stage2Body rootDir we itemE now with
    | ok v =>
      obtain ⟨dirs, fn, doc⟩ := v
      rw [hb] at h
      exact absurd h (by simp)
    | error e =>
      rw [hb] at h
      injection h with h'
      exact ⟨" -> ".toList ++ pyErrStr e, by rw [← h', List.append_assoc]⟩

/-- C2 (amended): for every record read from the extracted stage whose
domain is not in the skip set, Stage 2 either drops it with a logged
failure (the extraction collaborator failed, or — as the counterexample
shows — it returned no publish date and the pydantic model rejected the
record) or writes exactly one ArticleRecord, and every written record goes
under the `processed` stage at the same `(domain, recordId)` key with
`meta_info.dataset_id` equal to the input's `dataset_id`. -/
theorem c2_amended_write_key_and_lineage (fileName rootDir : List Char)
    (we : WarcExtract) (itemE : Except PyError NewsItem) (now : List Char)
    (h : we.domain ∉ stop_sites) :
    (∃ m, processWarcContent fileName rootDir we itemE now =
       Stage2Outcome.errorLogged m) ∨
    (∃ doc : ArticleJson,
       processWarcContent fileName rootDir we itemE now =
         Stage2Outcome.wrote [rootDir, processedContentDirChars, we.domain]
           (we.dataset_id ++ jsonExtChars) doc ∧
       doc.meta_info.dataset_id = we.dataset_id) := by
  simp only [processWarcContent, if_neg h]
  cases itemE with
  | error e =>
    exact .inl ⟨_, rfl⟩
  | ok item =>
    cases ha : articleOfDict (processArticleDict item we.uri) with
    | error e =>
      have hb : stage2Body rootDir we (Except.ok item) now = Except.error e := by
        simp [stage2Body, ha]
      rw [hb]
      exact .inl ⟨_, rfl⟩
    | ok a =>
      have hb : stage2Body rootDir we (Except.ok item) now =
          Except.ok ([rootDir, processedContentDirChars, we.domain],
            we.dataset_id ++ jsonExtChars,
            (⟨a.url, a.title, a.authors, a.content, a.excerpt, a.content_length,
              some (strftimeISO a.published_date), a.language, a.domain, a.media,
              ⟨we.dataset_id, we.dataset, we.dataset_content_length, we.warc_sourced_date,
               we.warc_extracted_date, now⟩⟩ : ArticleJson)) := by
        simp [stage2Body, ha]
      rw [hb]
      exact .inr ⟨_, rfl, rfl⟩

/-- C2 witness: the amended theorem applied to the concrete record
`sampleWe2` with the dated news-please result `item2d`. -/
theorem c2_amended_write_key_and_lineage_witness :
    sampleWe2.domain ∉ stop_sites ∧
    ((∃ m, processWarcContent fn2 root2 sampleWe2 (Except.ok item2d) now2 =
        Stage2Outcome.errorLogged m) ∨
     (∃ doc : ArticleJson,
        processWarcContent fn2 root2 sampleWe2 (Except.ok item2d) now2 =
          Stage2Outcome.wrote [root2, processedContentDirChars, sampleWe2.domain]
            (sampleWe2.dataset_id ++ jsonExtChars) doc ∧
        doc.meta_info.dataset_id = sampleWe2.dataset_id)) :=
  ⟨by decide,
   c2_amended_write_key_and_lineage fn2 root2 sampleWe2 (Except.ok item2d) now2
     (by decide)⟩
